import Mathlib

/-!
Verification of the MCP client orchestration pipeline.

This file is a shallow embedding, in Lean, of the orchestration logic of the
repository: the tool-response coercion helpers (`src/tools/utils.ts`), the
per-tool-call dispatch, the query state machine, the connection fleet loop and
the cleanup loop of the `MCPClient` class, together with theorems that settle
the specification's claims about them.

External collaborators (the chat-completion API, the MCP protocol transport,
the per-tool response transformers, `JSON.parse`) are modelled as explicit
oracle parameters; everything written in the repository itself is transcribed
directly from the source.
-/

set_option maxHeartbeats 1000000

/-- A JavaScript runtime value, as far as the repository's code inspects one:
`undefined`, `null`, booleans, numbers, strings and objects.  Objects are
encoded as cons-chains of string-keyed fields ending in `vObjNil`, which keeps
the type a plain (non-nested) inductive with decidable equality. -/
inductive JSValue where
  | vUndefined : JSValue
  | vNull : JSValue
  | vBool : Bool → JSValue
  | vNum : Int → JSValue
  | vStr : String → JSValue
  | vObjNil : JSValue
  | vObjCons : String → JSValue → JSValue → JSValue
deriving DecidableEq, Repr

/-- Builds a JS object value from a list of fields. -/
def jsObj : List (String × JSValue) → JSValue
  | [] => JSValue.vObjNil
  | (k, v) :: rest => JSValue.vObjCons k v (jsObj rest)

/-- JavaScript truthiness: `undefined`, `null`, `false`, `0` and `""` are
falsy; every object (even the empty one) is truthy. -/
def JSValue.truthy : JSValue → Bool
  | .vUndefined => false
  | .vNull => false
  | .vBool b => b
  | .vNum n => n != 0
  | .vStr s => s != ""
  | .vObjNil => true
  | .vObjCons _ _ _ => true

/-- `typeof v === 'object'`: true for `null` and for every object. -/
def JSValue.isObjectType : JSValue → Bool
  | .vNull => true
  | .vObjNil => true
  | .vObjCons _ _ _ => true
  | _ => false

/-- `typeof v === 'string'`. -/
def JSValue.isString : JSValue → Bool
  | .vStr _ => true
  | _ => false

/-- Property access `v.key`: the first binding of `key` in the object, or
`undefined` when the field is missing or the value is not an object. -/
def JSValue.getField : JSValue → String → JSValue
  | .vObjCons k v rest, key => if k == key then v else rest.getField key
  | _, _ => .vUndefined

/-- The JavaScript `a || b` operator on values. -/
def jsOr (a b : JSValue) : JSValue :=
  if a.truthy then a else b

/-- Model of `JSON.stringify` (a runtime builtin): a simple serializer on the
value model.  `undefined` at top level is never exercised by the embedded
code paths. -/
def jsonStringify : JSValue → String
  | .vUndefined => "null"
  | .vNull => "null"
  | .vBool b => if b then "true" else "false"
  | .vNum n => toString n
  | .vStr s => "\"" ++ s ++ "\""
  | .vObjNil => "\x7b\x7d"
  | .vObjCons k v rest =>
      "\x7b\"" ++ k ++ "\":" ++ jsonStringify v ++ jsonStringifyRest rest ++ "\x7d"
where
  jsonStringifyRest : JSValue → String
  | .vObjCons k v rest => ",\"" ++ k ++ "\":" ++ jsonStringify v ++ jsonStringifyRest rest
  | _ => ""

/-- `createToolResponse` from `src/tools/utils.ts`: fills in the defaults
`message: ''`, `paths: {}`, `rawContent: null` with the JS `||` operator. -/
def createToolResponse (options : JSValue) : JSValue :=
  jsObj [
    ("message", jsOr (options.getField "message") (.vStr "")),
    ("paths", jsOr (options.getField "paths") .vObjNil),
    ("rawContent", jsOr (options.getField "rawContent") .vNull)]

/-- `validateToolResponse` from `src/tools/utils.ts`: coerces an arbitrary
transformer output into the normalized tool-response shape. -/
def validateToolResponse (response : JSValue) : JSValue :=
  if !response.truthy || !response.isObjectType then
    createToolResponse (jsObj [("message", .vStr "无效的工具响应")])
  else
    createToolResponse (jsObj [
      ("message",
        if (response.getField "message").isString then response.getField "message"
        else .vStr ""),
      ("paths",
        if (response.getField "paths").truthy && (response.getField "paths").isObjectType then
          response.getField "paths"
        else .vObjNil),
      ("rawContent",
        if response.getField "rawContent" != .vUndefined then response.getField "rawContent"
        else .vNull)])

/-- Static per-tool policy (`ToolConfig` in `src/types.ts`).  The response
transformer itself is an external collaborator; the embedding records only
whether one is configured (`config?.responseHandler` truthiness) and looks the
function up in the oracle environment. -/
structure ToolConfig where
  name : String
  saveOutput : Option Bool
  sendResultToAI : Option Bool
  hasResponseHandler : Bool
deriving DecidableEq, Repr

/-- Connection kind of a server descriptor (`type` field in `src/types.ts`). -/
inductive ServerType where
  | command : ServerType
  | sse : ServerType
deriving DecidableEq, Repr

/-- Server descriptor (`ServerConfig` in `src/types.ts`).  The `env` override
map is used only inside transport construction (an external effect) and is
not needed by any claim, so it is omitted from the record. -/
structure ServerConfig where
  name : String
  stype : ServerType
  command : Option String
  args : List String
  url : Option String
  isOpen : Bool
  sendResultToAI : Option Bool
deriving DecidableEq, Repr

/-- One tool-call request from the model reply
(`tool_calls[i]` with `id` and `function.name` / `function.arguments`). -/
structure ToolCallRequest where
  id : String
  funcName : String
  funcArguments : String
deriving DecidableEq, Repr

/-- The tool-role conversation message built by
`_executeAndProcessToolCall` for the second model call. -/
structure ToolMessage where
  role : String
  tool_call_id : String
  name : String
  content : String
deriving DecidableEq, Repr

/-- Result of `_executeAndProcessToolCall`. -/
structure ExecResult where
  outputMessages : List String
  messageForAI : Option ToolMessage
deriving DecidableEq, Repr

/-- The `MCPClient` state consulted during dispatch: the session registry
(connected server names) and the two static configuration tables. -/
structure ClientState where
  sessions : List String
  toolConfigs : List (String × ToolConfig)
  serverConfigs : List (String × ServerConfig)

/-- External effects available to one tool call: `JSON.parse` (returns `none`
when parsing throws), `session.callTool` (the `.content` of the result, or the
thrown error's formatted detail) and the configured response transformer. -/
structure ExecEnv where
  jsonParse : String → Option JSValue
  callTool : String → String → JSValue → Except String JSValue
  handler : String → JSValue → Except String JSValue

/-- `getToolConfig`: plain lookup in the static tool-configuration table. -/
def getToolConfig (st : ClientState) (toolId : String) : Option ToolConfig :=
  st.toolConfigs.lookup toolId

/-- `toolFullName.split('__')` on the character list, splitting at every
non-overlapping occurrence of `__`, exactly like the JS `String.split`. -/
def splitDunder : List Char → List (List Char)
  | [] => [[]]
  | '_' :: '_' :: rest => [] :: splitDunder rest
  | c :: rest =>
    match splitDunder rest with
    | chunk :: more => (c :: chunk) :: more
    | [] => [[c]]

/-- `const [serverName, toolName] = toolFullName.split('__')`; a missing
second component (`undefined` in JS) is modelled as `""`. -/
def splitToolFullName (toolFullName : String) : String × String :=
  let parts := splitDunder toolFullName.data
  (String.mk (parts.headD []), String.mk ((parts.drop 1).headD []))

/-- Model of `rawContent.substring(0, 100)`. -/
def jsSubstringTo (s : String) (n : Nat) : String :=
  String.mk (s.data.take n)

/-- The raw display branch of `processToolResponse`: push the content when it
is a string, its serialization when it is a (truthy) object, nothing
otherwise. -/
def rawContentDisplay (content : JSValue) : List String :=
  match content with
  | .vStr s => [s]
  | c => if c.truthy && c.isObjectType then [jsonStringify c] else []

/-- `processToolResponse` from the client: with a configured transformer, run
it (a thrown error is caught and turned into a trace line), coerce its output
with `validateToolResponse`, and derive at most one display line from the
coerced response; without one, display the raw content. -/
def processToolResponse (st : ClientState) (env : ExecEnv)
    (toolFullName : String) (content : JSValue) : List String :=
  let config := getToolConfig st toolFullName
  match config with
  | some cfg =>
    if cfg.hasResponseHandler then
      match env.handler toolFullName content with
      | .error err => ["[Error processing " ++ toolFullName ++ ": " ++ err ++ "]"]
      | .ok raw =>
        let handlerResponse := validateToolResponse raw
        if !(handlerResponse.getField "message").truthy
            && (handlerResponse.getField "rawContent").truthy then
          match handlerResponse.getField "rawContent" with
          | .vStr s => [jsSubstringTo s 100 ++ "..."]
          | rc =>
            if rc.truthy && rc.isObjectType then
              ["Processing successful, structured data obtained"]
            else []
        else []
    else rawContentDisplay content
  | none => rawContentDisplay content

/-- The `shouldSendToAI` computation of the success branch of
`_executeAndProcessToolCall`: start with `serverConfig?.sendResultToAI ??
false`, then override with the tool-specific field when it is a boolean. -/
def shouldSendToAI (specificToolConfig : Option ToolConfig)
    (serverConfig : Option ServerConfig) : Bool :=
  let base := (serverConfig.bind ServerConfig.sendResultToAI).getD false
  match specificToolConfig with
  | some cfg =>
    match cfg.sendResultToAI with
    | some b => b
    | none => base
  | none => base

/-- The `shouldSendErrorToAI` computation of the error branch of
`_executeAndProcessToolCall`, transcribed separately from its own lines of
source. -/
def shouldSendErrorToAI (specificToolConfig : Option ToolConfig)
    (serverConfig : Option ServerConfig) : Bool :=
  let base := (serverConfig.bind ServerConfig.sendResultToAI).getD false
  match specificToolConfig with
  | some cfg =>
    match cfg.sendResultToAI with
    | some b => b
    | none => base
  | none => base

/-- Modelled from the spec's words (§4.3), for comparison with the code:
return the tool-specific `sendResultToAI` when set, otherwise the owning
server's descriptor-level default when set, otherwise `false`. -/
def resolveSendToAISpec (toolPolicy : Option ToolConfig)
    (serverDescriptor : Option ServerConfig) : Bool :=
  match toolPolicy.bind ToolConfig.sendResultToAI with
  | some b => b
  | none =>
    match serverDescriptor.bind ServerConfig.sendResultToAI with
    | some b => b
    | none => false

/-- `_executeAndProcessToolCall`: resolve the session and the two
configuration records, fail per-call (with a trace line and no model-bound
message) when the server is not connected or the arguments do not parse,
otherwise invoke the tool and produce the display lines plus, when the
resolved policy says so, a tool-role message carrying the serialized result
(success) or a structured error payload (invocation error). -/
def executeAndProcessToolCall (st : ClientState) (env : ExecEnv)
    (toolCall : ToolCallRequest) : ExecResult :=
  let toolFullName := toolCall.funcName
  let serverName := (splitToolFullName toolFullName).1
  let toolName := (splitToolFullName toolFullName).2
  let specificToolConfig := getToolConfig st toolFullName
  let serverConfig := st.serverConfigs.lookup serverName
  if !(st.sessions.contains serverName) then
    { outputMessages := ["[Error: Server " ++ serverName ++ " not found]"],
      messageForAI := none }
  else
    match env.jsonParse toolCall.funcArguments with
    | none =>
      { outputMessages := ["[Error: Invalid arguments for " ++ toolFullName ++ "]"],
        messageForAI := none }
    | some toolArgs =>
      match env.callTool serverName toolName toolArgs with
      | .ok content =>
        let contentStringForAI := jsonStringify content
        let outputMessages := processToolResponse st env toolFullName content
        { outputMessages := outputMessages,
          messageForAI :=
            if shouldSendToAI specificToolConfig serverConfig then
              some { role := "tool", tool_call_id := toolCall.id,
                     name := toolFullName, content := contentStringForAI }
            else none }
      | .error errorDetail =>
        let errorMessage := "[Error executing " ++ toolFullName ++ ": " ++ errorDetail ++ "]"
        { outputMessages := [errorMessage],
          messageForAI :=
            if shouldSendErrorToAI specificToolConfig serverConfig then
              some { role := "tool", tool_call_id := toolCall.id,
                     name := toolFullName,
                     content := jsonStringify (jsObj [("error", .vStr errorMessage)]) }
            else none }

/-- A tool entry as reported by a server's `listTools` response. -/
structure MCPToolInfo where
  name : String
  description : Option String
  inputSchema : Option JSValue
deriving DecidableEq, Repr

/-- A model-facing tool descriptor (`OpenAITool` in `src/types.ts`), flattened
to its `function` payload. -/
structure OpenAITool where
  name : String
  description : String
  parameters : JSValue
deriving DecidableEq, Repr

/-- The projection of one server's catalog inside
`_getAvailableToolsFormatted`: identifier `serverName__toolName`, description
prefixed with the server name, schema passed through (`|| {}`). -/
def formatServerTools (serverName : String) (tools : List MCPToolInfo) : List OpenAITool :=
  tools.map fun tool =>
    { name := serverName ++ "__" ++ tool.name,
      description := "[" ++ serverName ++ "] " ++ tool.description.getD "",
      parameters := tool.inputSchema.getD .vObjNil }

/-- `_getAvailableToolsFormatted`: query every connected session in registry
order; a listing failure on one server is caught and that server's tools are
simply skipped. -/
def getAvailableToolsFormatted (sessions : List String)
    (listToolsOracle : String → Except String (List MCPToolInfo)) : List OpenAITool :=
  sessions.foldl
    (fun availableTools serverName =>
      match listToolsOracle serverName with
      | .ok response => availableTools ++ formatServerTools serverName response
      | .error _ => availableTools)
    []

/-- The model reply consumed by `processQuery`: text content (`""` models a
missing/empty, i.e. falsy, `content` field) and the optional `tool_calls`
array (`none` models a missing field; note that in JS an empty array is still
truthy). -/
structure AIMessage where
  content : String
  tool_calls : Option (List ToolCallRequest)
deriving DecidableEq, Repr

/-- The environment of one `processQuery` run: the per-server `listTools`
oracle and what the external model collaborator would reply to the first and
to the second call (`.error` = the model call threw). -/
structure QueryEnv where
  listToolsOracle : String → Except String (List MCPToolInfo)
  firstReply : Except String AIMessage
  secondReply : Except String AIMessage
  exec : ExecEnv

/-- `ProcessQueryResult` from `src/types.ts`. -/
structure ProcessQueryResult where
  fullOutput : String
  finalAiResponse : Option String
deriving DecidableEq, Repr

/-- Instrumentation of one `processQuery` run: one entry per external model
call actually issued, recording whether a (non-empty) tool catalog was
offered on that call, and the number of tool calls dispatched. -/
structure QueryLog where
  aiCalls : List Bool
  dispatchedToolCalls : Nat
deriving DecidableEq, Repr

/-- `processQuery`: reject when no server is connected, otherwise fetch the
catalog, make the first model call, either take the direct answer or dispatch
every requested tool call, optionally make a catalog-free second model call
when at least one tool-role message was produced, and assemble the result;
a model-call failure is caught and becomes the trace's error line.  Returns
the settled promise (`Except.error` = the call threw) and the
instrumentation log. -/
def processQuery (st : ClientState) (env : QueryEnv) (query : String) :
    Except String ProcessQueryResult × QueryLog :=
  if st.sessions.length = 0 then
    (.error "Not connected to any server", ⟨[], 0⟩)
  else
    let availableTools := getAvailableToolsFormatted st.sessions env.listToolsOracle
    let firstCatalog := decide (0 < availableTools.length)
    match env.firstReply with
    | .error e =>
      (.ok { fullOutput := "Error processing query: " ++ e, finalAiResponse := none },
       ⟨[firstCatalog], 0⟩)
    | .ok firstAiMessage =>
      let directLines : List String :=
        if firstAiMessage.content != "" && firstAiMessage.tool_calls.isNone then
          [firstAiMessage.content]
        else []
      match firstAiMessage.tool_calls with
      | none =>
        (.ok { fullOutput := String.intercalate "\n" directLines, finalAiResponse := none },
         ⟨[firstCatalog], 0⟩)
      | some toolCalls =>
        let toolExecutionResults := toolCalls.map (executeAndProcessToolCall st env.exec)
        let outputLines := directLines ++ toolExecutionResults.flatMap ExecResult.outputMessages
        let toolMessagesForAI := toolExecutionResults.filterMap ExecResult.messageForAI
        if 0 < toolMessagesForAI.length then
          match env.secondReply with
          | .error e =>
            (.ok { fullOutput :=
                     String.intercalate "\n" (outputLines ++ ["Error processing query: " ++ e]),
                   finalAiResponse := none },
             ⟨[firstCatalog, false], toolCalls.length⟩)
          | .ok secondAiMessage =>
            if secondAiMessage.content != "" then
              (.ok { fullOutput :=
                       String.intercalate "\n"
                         (outputLines ++ ["\n[AI Summary]:", secondAiMessage.content]),
                     finalAiResponse := some secondAiMessage.content },
               ⟨[firstCatalog, false], toolCalls.length⟩)
            else
              (.ok { fullOutput := String.intercalate "\n" outputLines, finalAiResponse := none },
               ⟨[firstCatalog, false], toolCalls.length⟩)
        else
          (.ok { fullOutput := String.intercalate "\n" outputLines, finalAiResponse := none },
           ⟨[firstCatalog], toolCalls.length⟩)

/-- The registries cleared by `cleanup`: transport names and session names. -/
structure Registries where
  transports : List String
  sessions : List String
deriving DecidableEq, Repr

/-- The `for ... of transports.values() { await transport.close() }` loop of
`cleanup`, with no per-transport error handling: returns the loop outcome and
the list of transports actually closed.  A throwing `close` aborts the loop,
leaving the rest unclosed. -/
def closeTransportsLoop (closeOracle : String → Except String Unit) :
    List String → Except String Unit × List String
  | [] => (.ok (), [])
  | t :: rest =>
    match closeOracle t with
    | .ok _ =>
      let tail := closeTransportsLoop closeOracle rest
      (tail.1, t :: tail.2)
    | .error e => (.error e, [])

/-- `cleanup`: close every transport in registry order, then clear both maps.
When a close throws, the error propagates and neither map is cleared. -/
def cleanup (st : Registries) (closeOracle : String → Except String Unit) :
    Except String Registries × List String :=
  match closeTransportsLoop closeOracle st.transports with
  | (.ok _, closed) => (.ok ⟨[], []⟩, closed)
  | (.error e, closed) => (.error e, closed)

/-- `connectToServer`: transliteration of the transport-selection branching;
the actual transport construction and protocol handshake are the external
`attempt` oracle. -/
def connectToServer (serverConfig : ServerConfig)
    (attempt : ServerConfig → Except String Unit) : Except String Unit :=
  match serverConfig.stype with
  | .command =>
    match serverConfig.command with
    | none => .error ("Missing command for server " ++ serverConfig.name)
    | some _ => attempt serverConfig
  | .sse =>
    match serverConfig.url with
    | some _ => attempt serverConfig
    | none =>
      .error ("Invalid or unsupported server configuration type for: " ++ serverConfig.name)

/-- Whether a connection attempt for one descriptor succeeds. -/
def connectSucceeds (attempt : ServerConfig → Except String Unit)
    (serverConfig : ServerConfig) : Bool :=
  match connectToServer serverConfig attempt with
  | .ok _ => true
  | .error _ => false

/-- `connectToAllServers`: filter the configured fleet to the open
descriptors, attempt each in order inside its own try/catch, collect the
names of the successes. -/
def connectToAllServers (cfgs : List ServerConfig)
    (attempt : ServerConfig → Except String Unit) : List String :=
  let openServers := cfgs.filter ServerConfig.isOpen
  openServers.foldl
    (fun connectedServers serverConfig =>
      match connectToServer serverConfig attempt with
      | .ok _ => connectedServers ++ [serverConfig.name]
      | .error _ => connectedServers)
    []


/-- The counterexample input to idempotence: a response whose `rawContent` is
the (falsy) boolean `false`. -/
def nonIdempotentResponse : JSValue :=
  jsObj [("message", .vStr ""), ("paths", .vObjNil), ("rawContent", .vBool false)]

/-- Concrete client state: server `alpha` connected, server `srvB` configured
with descriptor-level `sendResultToAI: true` but not connected, and one tool
config for `alpha__t1` with `sendResultToAI: true` and no transformer. -/
def sampleState : ClientState :=
  { sessions := ["alpha"],
    toolConfigs := [("alpha__t1", ⟨"t1", some true, some true, false⟩)],
    serverConfigs :=
      [("alpha", ⟨"alpha", .command, some "node", [], none, true, none⟩),
       ("srvB", ⟨"srvB", .command, some "node", [], none, true, some true⟩)] }

/-- Concrete dispatch environment: arguments parse to `\x7b\x7d`, every tool
invocation succeeds with the string `"result"`. -/
def sampleExecOk : ExecEnv :=
  ⟨fun _ => some .vObjNil, fun _ _ _ => .ok (.vStr "result"), fun _ _ => .ok .vNull⟩

/-- Concrete dispatch environment in which every tool invocation throws. -/
def sampleExecErr : ExecEnv :=
  ⟨fun _ => some .vObjNil, fun _ _ _ => .error "boom", fun _ _ => .ok .vNull⟩

/-- Concrete dispatch environment in which `JSON.parse` always throws. -/
def sampleExecParseFail : ExecEnv :=
  ⟨fun _ => none, fun _ _ _ => .ok .vNull, fun _ _ => .ok .vNull⟩

/-- A tool call addressed to the configured-but-not-connected server. -/
def sampleCallNotConnected : ToolCallRequest := ⟨"call1", "srvB__doit", "\x7b\x7d"⟩

/-- A tool call addressed to the connected server's configured tool. -/
def sampleCallOk : ToolCallRequest := ⟨"id1", "alpha__t1", "\x7b\x7d"⟩

/-- Concrete `listTools` oracle: one tool on every server. -/
def sampleListTools : String → Except String (List MCPToolInfo) :=
  fun _ => .ok [⟨"t1", some "a tool", none⟩]

/-- Query environment whose first reply is a plain text answer. -/
def sampleEnvDirect : QueryEnv :=
  ⟨sampleListTools, .ok ⟨"Paris is the capital of France.", none⟩,
   .error "unused", sampleExecOk⟩

/-- Query environment whose first reply requests one tool call and whose
second reply is a summary. -/
def sampleEnvTools : QueryEnv :=
  ⟨sampleListTools, .ok ⟨"", some [sampleCallOk]⟩, .ok ⟨"Summary: done", none⟩, sampleExecOk⟩

/-- Query environment whose first reply carries both text content and a tool
call. -/
def sampleEnvContentAndTools : QueryEnv :=
  ⟨sampleListTools, .ok ⟨"hello", some [sampleCallOk]⟩, .ok ⟨"Summary: done", none⟩,
   sampleExecOk⟩

/-- Query environment for a batch of two calls where the second call's server
is not connected. -/
def sampleEnvBatch : QueryEnv :=
  ⟨sampleListTools, .ok ⟨"", some [sampleCallOk, sampleCallNotConnected]⟩,
   .ok ⟨"Summary: done", none⟩, sampleExecOk⟩

/-- A transport-close oracle that throws on transport `t1` only. -/
def sampleBadClose : String → Except String Unit :=
  fun t => if t == "t1" then .error "boom" else .ok ()

/-- A transport-close oracle that always succeeds. -/
def sampleGoodClose : String → Except String Unit :=
  fun _ => .ok ()

/-- A fleet of three open command descriptors. -/
def sampleFleet : List ServerConfig :=
  [⟨"srvA", .command, some "node", [], none, true, none⟩,
   ⟨"srvB", .command, some "node", [], none, true, none⟩,
   ⟨"srvC", .command, some "node", [], none, true, none⟩]

/-- A connection oracle that fails exactly on `srvB`. -/
def sampleAttempt : ServerConfig → Except String Unit :=
  fun cfg => if cfg.name == "srvB" then .error "connect failed" else .ok ()

theorem jsOr_msg_default (v : JSValue) :
    jsOr (if v.isString then v else .vStr "") (.vStr "")
      = if v.isString then v else .vStr "" := by
  cases v with
  | vStr s =>
    by_cases hs : s = ""
    · subst hs; rfl
    · simp [jsOr, JSValue.isString, JSValue.truthy, bne, hs]
  | vUndefined => rfl
  | vNull => rfl
  | vBool b => rfl
  | vNum n => rfl
  | vObjNil => rfl
  | vObjCons k a r => rfl

theorem jsOr_paths_default (v : JSValue) :
    jsOr (if v.truthy && v.isObjectType then v else .vObjNil) .vObjNil
      = if v.truthy && v.isObjectType then v else .vObjNil := by
  cases v with
  | vBool b => cases b <;> rfl
  | vNum n => simp [jsOr, JSValue.truthy, JSValue.isObjectType]
  | vStr s => simp [jsOr, JSValue.truthy, JSValue.isObjectType]
  | vUndefined => rfl
  | vNull => rfl
  | vObjNil => rfl
  | vObjCons k a r => rfl

theorem jsOr_raw_default (v : JSValue) :
    jsOr (if v != .vUndefined then v else .vNull) .vNull
      = if v.truthy then v else .vNull := by
  cases v with
  | vUndefined => rfl
  | vNull => rfl
  | vBool b => cases b <;> rfl
  | vNum n => simp [jsOr, JSValue.truthy]
  | vStr s => simp [jsOr, JSValue.truthy]
  | vObjNil => rfl
  | vObjCons k a r => rfl

theorem validateToolResponse_not_obj {x : JSValue}
    (h : (x.truthy && x.isObjectType) = false) :
    validateToolResponse x
      = jsObj [("message", .vStr "无效的工具响应"), ("paths", .vObjNil),
               ("rawContent", .vNull)] := by
  cases x with
  | vUndefined => decide
  | vNull => decide
  | vBool b => cases b <;> decide
  | vNum n =>
    simp only [validateToolResponse, JSValue.truthy, JSValue.isObjectType, Bool.not_false,
      Bool.or_true, if_true]
    decide
  | vStr s =>
    simp only [validateToolResponse, JSValue.truthy, JSValue.isObjectType, Bool.not_false,
      Bool.or_true, if_true]
    decide
  | vObjNil => simp [JSValue.truthy, JSValue.isObjectType] at h
  | vObjCons k a r => simp [JSValue.truthy, JSValue.isObjectType] at h

theorem validateToolResponse_obj {x : JSValue}
    (h1 : x.truthy = true) (h2 : x.isObjectType = true) :
    validateToolResponse x
      = jsObj [
          ("message",
            if (x.getField "message").isString then x.getField "message" else .vStr ""),
          ("paths",
            if (x.getField "paths").truthy && (x.getField "paths").isObjectType then
              x.getField "paths"
            else .vObjNil),
          ("rawContent",
            if (x.getField "rawContent").truthy then x.getField "rawContent" else .vNull)] := by
  simp only [validateToolResponse, h1, h2, Bool.not_true, Bool.or_self, Bool.false_eq_true,
    if_false, createToolResponse, jsObj, JSValue.getField]
  simp only [show ("message" == "message") = true from rfl,
    show ("message" == "paths") = false from rfl,
    show ("paths" == "paths") = true from rfl,
    show ("message" == "rawContent") = false from rfl,
    show ("paths" == "rawContent") = false from rfl,
    show ("rawContent" == "rawContent") = true from rfl,
    if_true, if_false]
  simp only [Bool.false_eq_true, if_false]
  rw [jsOr_msg_default, jsOr_paths_default, jsOr_raw_default]

theorem validateToolResponse_fixpoint (m p c : JSValue) (hm : m.isString = true)
    (hp : (p.truthy && p.isObjectType) = true)
    (hc : (c.truthy || c == JSValue.vNull) = true) :
    validateToolResponse (jsObj [("message", m), ("paths", p), ("rawContent", c)])
      = jsObj [("message", m), ("paths", p), ("rawContent", c)] := by
  have hobj := validateToolResponse_obj
    (x := jsObj [("message", m), ("paths", p), ("rawContent", c)])
    (by rfl) (by rfl)
  rw [hobj]
  simp only [jsObj, JSValue.getField,
    show ("message" == "message") = true from rfl,
    show ("message" == "paths") = false from rfl,
    show ("paths" == "paths") = true from rfl,
    show ("message" == "rawContent") = false from rfl,
    show ("paths" == "rawContent") = false from rfl,
    show ("rawContent" == "rawContent") = true from rfl,
    if_true, if_false, Bool.false_eq_true]
  rw [if_pos hm, if_pos hp]
  cases hct : c.truthy with
  | true => rfl
  | false =>
    have hnull : c = .vNull := by
      have h2 := hc
      rw [hct] at h2
      simpa using h2
    subst hnull
    rfl

theorem validateToolResponse_idem (x : JSValue) :
    validateToolResponse (validateToolResponse x) = validateToolResponse x := by
  by_cases h : (x.truthy && x.isObjectType) = true
  · rw [validateToolResponse_obj (Bool.and_elim_left h) (Bool.and_elim_right h)]
    apply validateToolResponse_fixpoint
    · by_cases hm : (x.getField "message").isString = true
      · rw [if_pos hm]; exact hm
      · rw [if_neg hm]; rfl
    · by_cases hp : ((x.getField "paths").truthy && (x.getField "paths").isObjectType) = true
      · rw [if_pos hp]; exact hp
      · rw [if_neg hp]; rfl
    · by_cases hc : (x.getField "rawContent").truthy = true
      · rw [if_pos hc, hc]; rfl
      · rw [if_neg hc]; rfl
  · have h' : (x.truthy && x.isObjectType) = false := by
      revert h; cases (x.truthy && x.isObjectType) <;> simp
    rw [validateToolResponse_not_obj h']
    decide

/-- Claim C1: for every dispatched tool call, the effective `sendResultToAI`
decision equals the tool-specific config's field when that field is set to a
boolean, otherwise the owning server descriptor's default when set, otherwise
`false`; and the success branch and the tool-execution-error branch of
dispatch perform the identical precedence computation. -/
theorem claim1_sendToAI_precedence (t : Option ToolConfig) (s : Option ServerConfig) :
    shouldSendToAI t s = resolveSendToAISpec t s
      ∧ shouldSendErrorToAI t s = resolveSendToAISpec t s := by
  have herr : shouldSendErrorToAI t s = shouldSendToAI t s := rfl
  have h : shouldSendToAI t s = resolveSendToAISpec t s := by
    rcases t with _ | tc
    · rcases s with _ | sc
      · rfl
      · rcases hsc : sc.sendResultToAI with _ | b <;>
          simp [shouldSendToAI, resolveSendToAISpec, Option.bind, hsc]
    · rcases htc : tc.sendResultToAI with _ | b <;> rcases s with _ | sc
      · simp [shouldSendToAI, resolveSendToAISpec, Option.bind, htc]
      · rcases hsc : sc.sendResultToAI with _ | b2 <;>
          simp [shouldSendToAI, resolveSendToAISpec, Option.bind, hsc, htc]
      · simp [shouldSendToAI, resolveSendToAISpec, Option.bind, htc]
      · simp [shouldSendToAI, resolveSendToAISpec, Option.bind, htc]
  exact ⟨h, herr ▸ h⟩

/-- Claim C3 counterexample: at the non-conforming input `null`,
`validateToolResponse` does not return the claimed defaults
`paths: \x7b\x7d, rawContent: null` together with `message: ""` — its
`message` is the fixed invalid-response marker string instead. -/
theorem claim3_counterexample :
    validateToolResponse .vNull
      ≠ jsObj [("message", .vStr ""), ("paths", .vObjNil), ("rawContent", .vNull)] := by
  decide

/-- Claim C3 (amended): `validateToolResponse` never rejects.  For `null` and
non-object inputs it returns `message: "无效的工具响应"` (the invalid-response
marker), `paths: \x7b\x7d`, `rawContent: null`; for object inputs it returns
the defaults `message: "", paths: \x7b\x7d, rawContent: null` merged with
whatever valid fields were present, except that a present-but-falsy
`rawContent` is coerced to `null` by the `\|\|` defaulting. -/
theorem claim3_coercion (x : JSValue) :
    ((x.truthy && x.isObjectType) = false →
        validateToolResponse x
          = jsObj [("message", .vStr "无效的工具响应"), ("paths", .vObjNil),
                   ("rawContent", .vNull)])
    ∧ ((x.truthy && x.isObjectType) = true →
        validateToolResponse x
          = jsObj [
              ("message",
                if (x.getField "message").isString then x.getField "message" else .vStr ""),
              ("paths",
                if (x.getField "paths").truthy && (x.getField "paths").isObjectType then
                  x.getField "paths"
                else .vObjNil),
              ("rawContent",
                if (x.getField "rawContent").truthy then x.getField "rawContent"
                else .vNull)]) :=
  ⟨fun h => validateToolResponse_not_obj h,
   fun h => validateToolResponse_obj (Bool.and_elim_left h) (Bool.and_elim_right h)⟩

/-- Witness for claim C3: the amended theorem evaluated at the concrete
inputs `null` (non-object branch) and `\x7brawContent: 7\x7d` (object branch
with one valid field). -/
theorem claim3_coercion_witness :
    validateToolResponse .vNull
      = jsObj [("message", .vStr "无效的工具响应"), ("paths", .vObjNil),
               ("rawContent", .vNull)]
    ∧ validateToolResponse (jsObj [("rawContent", .vNum 7)])
      = jsObj [("message", .vStr ""), ("paths", .vObjNil), ("rawContent", .vNum 7)] := by
  constructor
  · exact (claim3_coercion .vNull).1 (by decide)
  · have h := (claim3_coercion (jsObj [("rawContent", .vNum 7)])).2 (by decide)
    rw [h]
    decide

/-- Claim C4 counterexample: the response
`\x7bmessage: "", paths: \x7b\x7d, rawContent: false\x7d` conforms to the
claimed valid shape (`message` a string, `paths` an object, `rawContent`
non-undefined), yet `validateToolResponse` does not return it unchanged: the
falsy `rawContent` is coerced to `null`. -/
theorem claim4_counterexample :
    (nonIdempotentResponse.getField "message").isString = true
    ∧ (nonIdempotentResponse.getField "paths").isObjectType = true
    ∧ nonIdempotentResponse.getField "rawContent" ≠ .vUndefined
    ∧ validateToolResponse nonIdempotentResponse ≠ nonIdempotentResponse := by
  decide

/-- Claim C4 (amended): `validateToolResponse` is the identity on valid
responses whose `rawContent` is not a falsy non-null value (i.e. is truthy or
`null`), and applying it twice always equals applying it once. -/
theorem claim4_idempotent :
    (∀ m p c : JSValue, m.isString = true → (p.truthy && p.isObjectType) = true →
        (c.truthy || c == JSValue.vNull) = true →
        validateToolResponse (jsObj [("message", m), ("paths", p), ("rawContent", c)])
          = jsObj [("message", m), ("paths", p), ("rawContent", c)])
    ∧ ∀ x : JSValue, validateToolResponse (validateToolResponse x) = validateToolResponse x :=
  ⟨validateToolResponse_fixpoint, validateToolResponse_idem⟩

/-- Witness for claim C4: the amended theorem evaluated at the concrete valid
response `\x7bmessage: "ok", paths: \x7b\x7d, rawContent: null\x7d` and, for
the double-application part, at the concrete input `42`. -/
theorem claim4_idempotent_witness :
    validateToolResponse
        (jsObj [("message", .vStr "ok"), ("paths", .vObjNil), ("rawContent", .vNull)])
      = jsObj [("message", .vStr "ok"), ("paths", .vObjNil), ("rawContent", .vNull)]
    ∧ validateToolResponse (validateToolResponse (.vNum 42))
      = validateToolResponse (.vNum 42) :=
  ⟨claim4_idempotent.1 (.vStr "ok") .vObjNil .vNull (by decide) (by decide) (by decide),
   claim4_idempotent.2 (.vNum 42)⟩

theorem shouldSendToAI_eq_spec (t : Option ToolConfig) (s : Option ServerConfig) :
    shouldSendToAI t s = resolveSendToAISpec t s := by
  rcases t with _ | tc
  · rcases s with _ | sc
    · rfl
    · rcases hsc : sc.sendResultToAI with _ | b <;>
        simp [shouldSendToAI, resolveSendToAISpec, Option.bind, hsc]
  · rcases htc : tc.sendResultToAI with _ | b <;> rcases s with _ | sc
    · simp [shouldSendToAI, resolveSendToAISpec, Option.bind, htc]
    · rcases hsc : sc.sendResultToAI with _ | b2 <;>
        simp [shouldSendToAI, resolveSendToAISpec, Option.bind, hsc, htc]
    · simp [shouldSendToAI, resolveSendToAISpec, Option.bind, htc]
    · simp [shouldSendToAI, resolveSendToAISpec, Option.bind, htc]

theorem exec_not_connected (st : ClientState) (env : ExecEnv) (tc : ToolCallRequest)
    (h : st.sessions.contains (splitToolFullName tc.funcName).1 = false) :
    executeAndProcessToolCall st env tc
      = ⟨["[Error: Server " ++ (splitToolFullName tc.funcName).1 ++ " not found]"], none⟩ := by
  have hnmem : ¬ (splitToolFullName tc.funcName).1 ∈ st.sessions := by simpa using h
  simp [executeAndProcessToolCall, hnmem]

theorem exec_parse_error (st : ClientState) (env : ExecEnv) (tc : ToolCallRequest)
    (h1 : st.sessions.contains (splitToolFullName tc.funcName).1 = true)
    (h2 : env.jsonParse tc.funcArguments = none) :
    executeAndProcessToolCall st env tc
      = ⟨["[Error: Invalid arguments for " ++ tc.funcName ++ "]"], none⟩ := by
  have hmem : (splitToolFullName tc.funcName).1 ∈ st.sessions := by simpa using h1
  simp [executeAndProcessToolCall, hmem, h2]

theorem exec_success (st : ClientState) (env : ExecEnv) (tc : ToolCallRequest)
    (args content : JSValue)
    (h1 : st.sessions.contains (splitToolFullName tc.funcName).1 = true)
    (h2 : env.jsonParse tc.funcArguments = some args)
    (h3 : env.callTool (splitToolFullName tc.funcName).1 (splitToolFullName tc.funcName).2 args
            = .ok content) :
    executeAndProcessToolCall st env tc
      = ⟨processToolResponse st env tc.funcName content,
         if resolveSendToAISpec (getToolConfig st tc.funcName)
              (st.serverConfigs.lookup (splitToolFullName tc.funcName).1) then
           some ⟨"tool", tc.id, tc.funcName, jsonStringify content⟩
         else none⟩ := by
  have hmem : (splitToolFullName tc.funcName).1 ∈ st.sessions := by simpa using h1
  simp [executeAndProcessToolCall, hmem, h2, h3, shouldSendToAI_eq_spec]

theorem exec_invocation_error (st : ClientState) (env : ExecEnv) (tc : ToolCallRequest)
    (args : JSValue) (e : String)
    (h1 : st.sessions.contains (splitToolFullName tc.funcName).1 = true)
    (h2 : env.jsonParse tc.funcArguments = some args)
    (h3 : env.callTool (splitToolFullName tc.funcName).1 (splitToolFullName tc.funcName).2 args
            = .error e) :
    executeAndProcessToolCall st env tc
      = ⟨["[Error executing " ++ tc.funcName ++ ": " ++ e ++ "]"],
         if resolveSendToAISpec (getToolConfig st tc.funcName)
              (st.serverConfigs.lookup (splitToolFullName tc.funcName).1) then
           some ⟨"tool", tc.id, tc.funcName,
                 jsonStringify (jsObj [("error",
                   .vStr ("[Error executing " ++ tc.funcName ++ ": " ++ e ++ "]"))])⟩
         else none⟩ := by
  have herr : shouldSendErrorToAI (getToolConfig st tc.funcName)
      (st.serverConfigs.lookup (splitToolFullName tc.funcName).1)
      = resolveSendToAISpec (getToolConfig st tc.funcName)
          (st.serverConfigs.lookup (splitToolFullName tc.funcName).1) :=
    shouldSendToAI_eq_spec _ _
  have hmem : (splitToolFullName tc.funcName).1 ∈ st.sessions := by simpa using h1
  simp [executeAndProcessToolCall, hmem, h2, h3, herr]

theorem exec_messageForAI_role (st : ClientState) (env : ExecEnv) (tc : ToolCallRequest)
    (m : ToolMessage) (h : (executeAndProcessToolCall st env tc).messageForAI = some m) :
    m.role = "tool" := by
  by_cases hc : st.sessions.contains (splitToolFullName tc.funcName).1 = true
  · rcases hp : env.jsonParse tc.funcArguments with _ | args
    · rw [exec_parse_error st env tc hc hp] at h
      simp at h
    · rcases ht : env.callTool (splitToolFullName tc.funcName).1
          (splitToolFullName tc.funcName).2 args with e | content
      · rw [exec_invocation_error st env tc args e hc hp ht] at h
        by_cases hs : resolveSendToAISpec (getToolConfig st tc.funcName)
            (st.serverConfigs.lookup (splitToolFullName tc.funcName).1) = true
        · simp only [hs, if_true] at h
          cases h
          rfl
        · simp only [hs, Bool.false_eq_true, if_false] at h
          simp at h
      · rw [exec_success st env tc args content hc hp ht] at h
        by_cases hs : resolveSendToAISpec (getToolConfig st tc.funcName)
            (st.serverConfigs.lookup (splitToolFullName tc.funcName).1) = true
        · simp only [hs, if_true] at h
          cases h
          rfl
        · simp only [hs, Bool.false_eq_true, if_false] at h
          simp at h
  · have hc' : st.sessions.contains (splitToolFullName tc.funcName).1 = false := by
      revert hc; cases st.sessions.contains (splitToolFullName tc.funcName).1 <;> simp
    rw [exec_not_connected st env tc hc'] at h
    simp at h

theorem processQuery_no_toolcalls (st : ClientState) (env : QueryEnv) (q c : String)
    (hs : st.sessions ≠ []) (hr : env.firstReply = .ok ⟨c, none⟩) :
    processQuery st env q
      = (.ok ⟨c, none⟩,
         ⟨[decide (0 < (getAvailableToolsFormatted st.sessions env.listToolsOracle).length)], 0⟩) := by
  have hlen : ¬ st.sessions.length = 0 := by
    simpa [List.length_eq_zero] using hs
  by_cases hc : c = ""
  · subst hc
    simp [processQuery, hlen, hr]
    rfl
  · simp [processQuery, hlen, hr, hc, String.intercalate]
    rfl

theorem processQuery_toolcalls (st : ClientState) (env : QueryEnv) (q c : String)
    (calls : List ToolCallRequest)
    (hs : st.sessions ≠ []) (hr : env.firstReply = .ok ⟨c, some calls⟩) :
    processQuery st env q
      = (if 0 < ((calls.map (executeAndProcessToolCall st env.exec)).filterMap
                   ExecResult.messageForAI).length then
           match env.secondReply with
           | .error e =>
             (.ok ⟨String.intercalate "\n"
                     ((calls.map (executeAndProcessToolCall st env.exec)).flatMap
                        ExecResult.outputMessages ++ ["Error processing query: " ++ e]),
                   none⟩,
              ⟨[decide (0 < (getAvailableToolsFormatted st.sessions env.listToolsOracle).length),
                false], calls.length⟩)
           | .ok secondAiMessage =>
             if secondAiMessage.content != "" then
               (.ok ⟨String.intercalate "\n"
                       ((calls.map (executeAndProcessToolCall st env.exec)).flatMap
                          ExecResult.outputMessages
                          ++ ["\n[AI Summary]:", secondAiMessage.content]),
                     some secondAiMessage.content⟩,
                ⟨[decide
                    (0 < (getAvailableToolsFormatted st.sessions env.listToolsOracle).length),
                  false], calls.length⟩)
             else
               (.ok ⟨String.intercalate "\n"
                       ((calls.map (executeAndProcessToolCall st env.exec)).flatMap
                          ExecResult.outputMessages), none⟩,
                ⟨[decide
                    (0 < (getAvailableToolsFormatted st.sessions env.listToolsOracle).length),
                  false], calls.length⟩)
         else
           (.ok ⟨String.intercalate "\n"
                   ((calls.map (executeAndProcessToolCall st env.exec)).flatMap
                      ExecResult.outputMessages), none⟩,
            ⟨[decide (0 < (getAvailableToolsFormatted st.sessions env.listToolsOracle).length)],
             calls.length⟩)) := by
  have hlen : ¬ st.sessions.length = 0 := by
    simpa [List.length_eq_zero] using hs
  simp [processQuery, hlen, hr]

/-- Claim C5: when zero servers are connected, `processQuery` rejects the
query with the "Not connected to any server" error and no model call is ever
issued (the instrumentation log records zero model calls and zero
dispatches). -/
theorem claim5_zero_servers_rejected (st : ClientState) (env : QueryEnv) (q : String)
    (h : st.sessions = []) :
    processQuery st env q = (.error "Not connected to any server", ⟨[], 0⟩) := by
  simp [processQuery, h]

/-- Witness for claim C5 at a concrete empty registry. -/
theorem claim5_zero_servers_rejected_witness :
    processQuery ⟨[], [], []⟩ sampleEnvDirect "hi"
      = (.error "Not connected to any server", ⟨[], 0⟩) :=
  claim5_zero_servers_rejected ⟨[], [], []⟩ sampleEnvDirect "hi" rfl

/-- Claim C6: when the first model reply carries no tool-call requests and
text content `c`, the query result's trace is exactly `c`, its final-summary
field is absent, exactly one model call was made and no tool call was
dispatched. -/
theorem claim6_direct_answer (st : ClientState) (env : QueryEnv) (q c : String)
    (hs : st.sessions ≠ []) (hr : env.firstReply = .ok ⟨c, none⟩) :
    (processQuery st env q).1 = .ok ⟨c, none⟩
    ∧ (processQuery st env q).2.aiCalls.length = 1
    ∧ (processQuery st env q).2.dispatchedToolCalls = 0 := by
  rw [processQuery_no_toolcalls st env q c hs hr]
  exact ⟨rfl, rfl, rfl⟩

/-- Witness for claim C6 at a concrete state and reply. -/
theorem claim6_direct_answer_witness :
    (processQuery sampleState sampleEnvDirect "capital of France?").1
      = .ok ⟨"Paris is the capital of France.", none⟩
    ∧ (processQuery sampleState sampleEnvDirect "capital of France?").2.aiCalls.length = 1
    ∧ (processQuery sampleState sampleEnvDirect "capital of France?").2.dispatchedToolCalls
        = 0 :=
  claim6_direct_answer sampleState sampleEnvDirect "capital of France?"
    "Paris is the capital of France." (by decide) rfl

/-- Claim C10: when the first model reply carries tool-call requests, the
reply's text content is omitted from the trace entirely — the whole query
outcome is the one obtained with the content erased; the content is appended
only in the no-tool-calls branch. -/
theorem claim10_content_omitted (st : ClientState) (env : QueryEnv) (q c : String)
    (calls : List ToolCallRequest) (hr : env.firstReply = .ok ⟨c, some calls⟩) :
    processQuery st env q
      = processQuery st { env with firstReply := .ok ⟨"", some calls⟩ } q := by
  by_cases hs : st.sessions = []
  · simp [processQuery, hs]
  · rw [processQuery_toolcalls st env q c calls hs hr,
        processQuery_toolcalls st { env with firstReply := .ok ⟨"", some calls⟩ } q ""
          calls hs rfl]

/-- Witness for claim C10: a reply with content `"hello"` and one tool call
yields the same result as the content-free reply. -/
theorem claim10_content_omitted_witness :
    processQuery sampleState sampleEnvContentAndTools "q"
      = processQuery sampleState
          { sampleEnvContentAndTools with firstReply := .ok ⟨"", some [sampleCallOk]⟩ } "q" :=
  claim10_content_omitted sampleState sampleEnvContentAndTools "q" "hello" [sampleCallOk] rfl

/-- Claim C7: within one query whose first reply requests tool calls, a
second model call is issued (two logged model calls) if and only if at least
one tool-role message was produced by dispatch; when issued, the second call
offers no tool catalog (its logged catalog flag is `false`); and the result's
`finalAiResponse` is present exactly when the second call occurred and
returned content, in which case it equals that content. -/
theorem claim7_second_call (st : ClientState) (env : QueryEnv) (q c : String)
    (calls : List ToolCallRequest) (hs : st.sessions ≠ [])
    (hr : env.firstReply = .ok ⟨c, some calls⟩) :
    ((processQuery st env q).2.aiCalls.length = 2
       ↔ (calls.map (executeAndProcessToolCall st env.exec)).filterMap ExecResult.messageForAI
           ≠ [])
    ∧ (∀ m ∈ (calls.map (executeAndProcessToolCall st env.exec)).filterMap
          ExecResult.messageForAI, m.role = "tool")
    ∧ ((calls.map (executeAndProcessToolCall st env.exec)).filterMap ExecResult.messageForAI
         ≠ [] →
       (processQuery st env q).2.aiCalls
         = [decide (0 < (getAvailableToolsFormatted st.sessions env.listToolsOracle).length),
            false])
    ∧ (∀ r, (processQuery st env q).1 = .ok r →
        r.finalAiResponse
          = if (calls.map (executeAndProcessToolCall st env.exec)).filterMap
                ExecResult.messageForAI ≠ [] then
              match env.secondReply with
              | .ok secondAiMessage =>
                if secondAiMessage.content != "" then some secondAiMessage.content else none
              | .error _ => none
            else none) := by
  have hrole : ∀ m ∈ (calls.map (executeAndProcessToolCall st env.exec)).filterMap
      ExecResult.messageForAI, m.role = "tool" := by
    intro m hm
    rcases List.mem_filterMap.mp hm with ⟨r, hrmem, hfm⟩
    rcases List.mem_map.mp hrmem with ⟨tc, _, rfl⟩
    exact exec_messageForAI_role st env.exec tc m hfm
  rw [processQuery_toolcalls st env q c calls hs hr]
  simp only [List.filterMap_map] at hrole ⊢
  by_cases hT : 0 < (calls.filterMap
      (ExecResult.messageForAI ∘ executeAndProcessToolCall st env.exec)).length
  · have hTne : calls.filterMap
        (ExecResult.messageForAI ∘ executeAndProcessToolCall st env.exec) ≠ [] :=
      List.length_pos.mp hT
    rcases hsr : env.secondReply with e | secondAiMessage
    · refine ⟨by simp [hT, hsr, hTne], hrole, by simp [hT, hsr], ?_⟩
      intro r hrr
      simp only [hT, if_true, hsr] at hrr
      cases hrr
      simp [hTne, hsr]
    · by_cases hcnt : secondAiMessage.content = ""
      · refine ⟨by simp [hT, hsr, hcnt, hTne], hrole, by simp [hT, hsr, hcnt], ?_⟩
        intro r hrr
        simp only [hT, if_true, hsr, hcnt] at hrr
        simp only [bne_self_eq_false, Bool.false_eq_true, if_false] at hrr
        cases hrr
        simp [hTne, hsr, hcnt]
      · refine ⟨by simp [hT, hsr, hcnt, hTne], hrole, by simp [hT, hsr, hcnt], ?_⟩
        intro r hrr
        have hbne : (secondAiMessage.content != "") = true := by
          simpa [bne] using hcnt
        simp only [hT, if_true, hsr, hbne] at hrr
        cases hrr
        simp [hTne, hsr, hbne]
  · have hTe : calls.filterMap
        (ExecResult.messageForAI ∘ executeAndProcessToolCall st env.exec) = [] := by
      rcases hx : calls.filterMap
          (ExecResult.messageForAI ∘ executeAndProcessToolCall st env.exec) with _ | ⟨a, l⟩
      · rfl
      · exact absurd (by simp [hx]) hT
    refine ⟨by simp [hT, hTe], hrole, by simp [hTe], ?_⟩
    intro r hrr
    simp only [hT, if_false] at hrr
    cases hrr
    simp [hTe]

/-- Witness for claim C7: one dispatched call with policy `sendResultToAI:
true` leads to a second, catalog-free model call and the summary is recorded. -/
theorem claim7_second_call_witness :
    (processQuery sampleState sampleEnvTools "q").2.aiCalls = [true, false]
    ∧ (∀ r, (processQuery sampleState sampleEnvTools "q").1 = .ok r →
        r.finalAiResponse = some "Summary: done") := by
  have h := claim7_second_call sampleState sampleEnvTools "q" "" [sampleCallOk]
    (by decide) rfl
  constructor
  · have h3 := h.2.2.1 (by decide)
    rw [h3]
    decide
  · intro r hrr
    have h4 := h.2.2.2 r hrr
    rw [h4]
    decide

/-- Claim C2 counterexample: a dispatched call whose server is not connected
— a per-call failure — resolves to `sendResultToAI = true` under the
three-level precedence, yet dispatch produces no model-bound error payload
for it, contradicting the claim that every failing call produces one subject
to the same precedence as successes. -/
theorem claim2_counterexample :
    executeAndProcessToolCall sampleState sampleExecOk sampleCallNotConnected
      = ⟨["[Error: Server srvB not found]"], none⟩
    ∧ resolveSendToAISpec (getToolConfig sampleState "srvB__doit")
        (sampleState.serverConfigs.lookup "srvB") = true := by
  decide

/-- Claim C2 (amended): a per-tool-call failure never aborts sibling calls or
the query — the trace carries every call's output lines in request order and
the dispatch count equals the batch size; server-not-found and
argument-parse failures yield only a trace line and never a model-bound
message; a tool-invocation error yields its error trace line and a
structured error payload exactly when the same `sendResultToAI` precedence
as successes resolves to true; successful calls yield a success payload
exactly when the precedence resolves to true. -/
theorem claim2_batch_isolation :
    (∀ (st : ClientState) (env : QueryEnv) (q c : String) (calls : List ToolCallRequest),
        st.sessions ≠ [] → env.firstReply = .ok ⟨c, some calls⟩ →
        ∃ tail finalAi,
          (processQuery st env q).1
            = .ok ⟨String.intercalate "\n"
                ((calls.map (executeAndProcessToolCall st env.exec)).flatMap
                   ExecResult.outputMessages ++ tail), finalAi⟩
          ∧ (processQuery st env q).2.dispatchedToolCalls = calls.length)
    ∧ (∀ (st : ClientState) (env : ExecEnv) (tc : ToolCallRequest),
        st.sessions.contains (splitToolFullName tc.funcName).1 = false →
        executeAndProcessToolCall st env tc
          = ⟨["[Error: Server " ++ (splitToolFullName tc.funcName).1 ++ " not found]"],
             none⟩)
    ∧ (∀ (st : ClientState) (env : ExecEnv) (tc : ToolCallRequest),
        st.sessions.contains (splitToolFullName tc.funcName).1 = true →
        env.jsonParse tc.funcArguments = none →
        executeAndProcessToolCall st env tc
          = ⟨["[Error: Invalid arguments for " ++ tc.funcName ++ "]"], none⟩)
    ∧ (∀ (st : ClientState) (env : ExecEnv) (tc : ToolCallRequest) (args content : JSValue),
        st.sessions.contains (splitToolFullName tc.funcName).1 = true →
        env.jsonParse tc.funcArguments = some args →
        env.callTool (splitToolFullName tc.funcName).1 (splitToolFullName tc.funcName).2 args
            = .ok content →
        executeAndProcessToolCall st env tc
          = ⟨processToolResponse st env tc.funcName content,
             if resolveSendToAISpec (getToolConfig st tc.funcName)
                  (st.serverConfigs.lookup (splitToolFullName tc.funcName).1) then
               some ⟨"tool", tc.id, tc.funcName, jsonStringify content⟩
             else none⟩)
    ∧ (∀ (st : ClientState) (env : ExecEnv) (tc : ToolCallRequest) (args : JSValue)
          (e : String),
        st.sessions.contains (splitToolFullName tc.funcName).1 = true →
        env.jsonParse tc.funcArguments = some args →
        env.callTool (splitToolFullName tc.funcName).1 (splitToolFullName tc.funcName).2 args
            = .error e →
        executeAndProcessToolCall st env tc
          = ⟨["[Error executing " ++ tc.funcName ++ ": " ++ e ++ "]"],
             if resolveSendToAISpec (getToolConfig st tc.funcName)
                  (st.serverConfigs.lookup (splitToolFullName tc.funcName).1) then
               some ⟨"tool", tc.id, tc.funcName,
                     jsonStringify (jsObj [("error",
                       .vStr ("[Error executing " ++ tc.funcName ++ ": " ++ e ++ "]"))])⟩
             else none⟩) := by
  refine ⟨?_, exec_not_connected, exec_parse_error, exec_success, exec_invocation_error⟩
  intro st env q c calls hs hr
  rw [processQuery_toolcalls st env q c calls hs hr]
  split
  · split
    · rename_i e _
      exact ⟨["Error processing query: " ++ e], none, rfl, rfl⟩
    · rename_i secondAiMessage _
      split
      · exact ⟨["\n[AI Summary]:", secondAiMessage.content], some secondAiMessage.content,
          rfl, rfl⟩
      · exact ⟨[], none, by simp, rfl⟩
  · exact ⟨[], none, by simp, rfl⟩

/-- Witness for claim C2: a two-call batch where the second call's server is
not connected still yields both calls' lines and the full dispatch count, and
the four per-call branches evaluated at concrete calls. -/
theorem claim2_batch_isolation_witness :
    (∃ tail finalAi,
        (processQuery sampleState sampleEnvBatch "q").1
          = .ok ⟨String.intercalate "\n"
              (([sampleCallOk, sampleCallNotConnected].map
                  (executeAndProcessToolCall sampleState sampleEnvBatch.exec)).flatMap
                 ExecResult.outputMessages ++ tail), finalAi⟩
        ∧ (processQuery sampleState sampleEnvBatch "q").2.dispatchedToolCalls
            = [sampleCallOk, sampleCallNotConnected].length)
    ∧ executeAndProcessToolCall sampleState sampleExecOk sampleCallNotConnected
        = ⟨["[Error: Server srvB not found]"], none⟩
    ∧ executeAndProcessToolCall sampleState sampleExecParseFail sampleCallOk
        = ⟨["[Error: Invalid arguments for alpha__t1]"], none⟩
    ∧ (executeAndProcessToolCall sampleState sampleExecOk sampleCallOk).messageForAI
        = some ⟨"tool", "id1", "alpha__t1", "\"result\""⟩
    ∧ executeAndProcessToolCall sampleState sampleExecErr sampleCallOk
        = ⟨["[Error executing alpha__t1: boom]"],
           some ⟨"tool", "id1", "alpha__t1",
                 "\x7b\"error\":\"[Error executing alpha__t1: boom]\"\x7d"⟩⟩ := by
  refine ⟨?_, ?_, ?_, ?_, ?_⟩
  · exact claim2_batch_isolation.1 sampleState sampleEnvBatch "q" ""
      [sampleCallOk, sampleCallNotConnected] (by decide) rfl
  · have h := claim2_batch_isolation.2.1 sampleState sampleExecOk sampleCallNotConnected
      (by decide)
    rw [h]
    decide
  · have h := claim2_batch_isolation.2.2.1 sampleState sampleExecParseFail sampleCallOk
      (by decide) rfl
    rw [h]
    decide
  · have h := claim2_batch_isolation.2.2.2.1 sampleState sampleExecOk sampleCallOk
      .vObjNil (.vStr "result") (by decide) rfl rfl
    rw [h]
    decide
  · have h := claim2_batch_isolation.2.2.2.2 sampleState sampleExecErr sampleCallOk
      .vObjNil "boom" (by decide) rfl rfl
    rw [h]
    decide

theorem closeTransportsLoop_all_ok (closeOracle : String → Except String Unit)
    (ts : List String) (h : ∀ t ∈ ts, closeOracle t = .ok ()) :
    closeTransportsLoop closeOracle ts = (.ok (), ts) := by
  induction ts with
  | nil => rfl
  | cons t rest ih =>
    have ht : closeOracle t = .ok () := h t (by simp)
    have hrest : ∀ u ∈ rest, closeOracle u = .ok () := fun u hu => h u (by simp [hu])
    simp [closeTransportsLoop, ht, ih hrest]

theorem closeTransportsLoop_aborts (closeOracle : String → Except String Unit)
    (ts1 ts2 : List String) (t e : String)
    (h1 : ∀ u ∈ ts1, closeOracle u = .ok ()) (h2 : closeOracle t = .error e) :
    closeTransportsLoop closeOracle (ts1 ++ t :: ts2) = (.error e, ts1) := by
  induction ts1 with
  | nil => simp [closeTransportsLoop, h2]
  | cons u rest ih =>
    have hu : closeOracle u = .ok () := h1 u (by simp)
    have hrest : ∀ v ∈ rest, closeOracle v = .ok () := fun v hv => h1 v (by simp [hv])
    simp [closeTransportsLoop, hu, ih hrest]

/-- Claim C8 counterexample: with two open transports and a close that throws
on the first, `cleanup` propagates the error, closes nothing further — the
second transport, whose own close would succeed, is left open and the
registries are not cleared — refuting the claimed best-effort behavior. -/
theorem claim8_counterexample :
    sampleBadClose "t2" = .ok ()
    ∧ cleanup ⟨["t1", "t2"], ["s1"]⟩ sampleBadClose = (.error "boom", []) := by
  constructor
  · rfl
  · rfl

/-- Claim C8 (amended): `cleanup` closes the transports in registry order;
when every close succeeds it releases every open transport and clears both
registries, and a second call after a successful one closes nothing further
(idempotence); but it is not best-effort — the first failing close
propagates its error, the remaining transports are not closed, and the
registries are left unchanged. -/
theorem claim8_cleanup :
    (∀ (ts ss : List String) (closeOracle : String → Except String Unit),
        (∀ t ∈ ts, closeOracle t = .ok ()) →
        cleanup ⟨ts, ss⟩ closeOracle = (.ok ⟨[], []⟩, ts))
    ∧ (∀ closeOracle : String → Except String Unit,
        cleanup ⟨[], []⟩ closeOracle = (.ok ⟨[], []⟩, []))
    ∧ (∀ (ts1 ts2 ss : List String) (t e : String)
          (closeOracle : String → Except String Unit),
        (∀ u ∈ ts1, closeOracle u = .ok ()) → closeOracle t = .error e →
        cleanup ⟨ts1 ++ t :: ts2, ss⟩ closeOracle = (.error e, ts1)) := by
  refine ⟨?_, ?_, ?_⟩
  · intro ts ss closeOracle h
    simp [cleanup, closeTransportsLoop_all_ok closeOracle ts h]
  · intro closeOracle
    rfl
  · intro ts1 ts2 ss t e closeOracle h1 h2
    simp [cleanup, closeTransportsLoop_aborts closeOracle ts1 ts2 t e h1 h2]

/-- Witness for claim C8: a fully successful cleanup of two transports, the
idempotent second call, and an aborted cleanup where the failing transport's
successors stay open. -/
theorem claim8_cleanup_witness :
    cleanup ⟨["a", "b"], ["s1"]⟩ sampleGoodClose = (.ok ⟨[], []⟩, ["a", "b"])
    ∧ cleanup ⟨[], []⟩ sampleGoodClose = (.ok ⟨[], []⟩, [])
    ∧ cleanup ⟨["a", "t1", "z"], ["s1"]⟩ sampleBadClose = (.error "boom", ["a"]) := by
  refine ⟨?_, ?_, ?_⟩
  · exact claim8_cleanup.1 ["a", "b"] ["s1"] sampleGoodClose (by intro t _; rfl)
  · exact claim8_cleanup.2.1 sampleGoodClose
  · exact claim8_cleanup.2.2 ["a"] ["z"] ["s1"] "t1" "boom" sampleBadClose
      (by intro u hu; simp at hu; subst hu; rfl) rfl

theorem connectToAllServers_foldl (attempt : ServerConfig → Except String Unit)
    (l : List ServerConfig) (acc : List String) :
    l.foldl
      (fun connectedServers serverConfig =>
        match connectToServer serverConfig attempt with
        | .ok _ => connectedServers ++ [serverConfig.name]
        | .error _ => connectedServers)
      acc
      = acc ++ (l.filter (connectSucceeds attempt)).map ServerConfig.name := by
  induction l generalizing acc with
  | nil => simp
  | cons cfg rest ih =>
    rcases h : connectToServer cfg attempt with e | u
    · simp only [List.foldl, h]
      rw [ih]
      simp [List.filter, connectSucceeds, h]
    · simp only [List.foldl, h]
      rw [ih]
      simp [List.filter, connectSucceeds, h]

/-- Claim C9: `connectToAllServers` attempts every open descriptor
independently in configuration order and returns, without throwing, exactly
the names of the open descriptors whose connection attempt succeeded; in
particular a fleet of three open descriptors with one failure yields exactly
the two successful names. -/
theorem claim9_connect_fleet :
    (∀ (cfgs : List ServerConfig) (attempt : ServerConfig → Except String Unit),
        connectToAllServers cfgs attempt
          = ((cfgs.filter ServerConfig.isOpen).filter (connectSucceeds attempt)).map
              ServerConfig.name)
    ∧ connectToAllServers sampleFleet sampleAttempt = ["srvA", "srvC"] := by
  constructor
  · intro cfgs attempt
    unfold connectToAllServers
    rw [connectToAllServers_foldl]
    simp
  · decide
